import Mathlib

/-!
Verification of the Game Boy emulator core (cpu.cpp / ppu.cpp) against its
natural-language specification.  The C++ sources are shallowly embedded:
machine bytes and registers are `Nat` with explicit masking, the 64 KiB
address space is a byte store, and each C++ member function becomes a Lean
function on an explicit state record.  The `Memory` class implementation is
not present in the sources (only its declarations and call sites), so the
byte store is modelled from the specification; every other definition is a
direct transcription of the corresponding C++ function.
-/

set_option maxRecDepth 20000
set_option maxHeartbeats 8000000

namespace GB

/-- Modelled from the spec: the `Memory` class (memory.h / memory.cpp is
absent from the sources).  The spec describes `read(addr) -> byte` and
`write(addr, byte)` over a 64 KiB flat map; for the plain RAM addresses the
claims touch (stack bytes, IE 0xFFFF, IF 0xFF0F, LCD registers 0xFF40-0xFF45,
timer registers 0xFF04-0xFF07) a write stores the byte and a read returns the
last byte stored.  MBC banking and I/O side effects are out of scope for the
addresses used here. -/
def Mem : Type := Nat → Nat

/-- Modelled from the spec: `Memory::read` returns a `uint8_t`, hence the
byte mask. -/
def Mem.read (m : Mem) (addr : Nat) : Nat := m addr % 256

/-- Modelled from the spec: `Memory::write` stores one byte (the `uint8_t`
value parameter truncates the written value). -/
def Mem.write (m : Mem) (addr v : Nat) : Mem :=
  fun x => if x = addr then v % 256 else m x

/-- Modelled from the spec: `Memory::read_word` is a little-endian pair,
low byte at `addr`, high byte at `addr + 1` (16-bit address wraparound). -/
def Mem.readWord (m : Mem) (addr : Nat) : Nat :=
  m.read addr + 256 * m.read ((addr + 1) % 65536)

/-- State of the emulator core: the CPU register file and interrupt state
from cpu.h, the shared memory, the PPU timing state from ppu.h
(`cycleCounter`, `vblankFlag`), and the function-local `static` counters of
`CPU::updateTimer` (`divCounter`, `timaCounter`), `CPU::updatePPUTiming`
(`scanlineCycles`) and `PPU::step` (`lcdWasDisabled`), which persist across
calls exactly like fields.  `ppuAttached` models the `ppu` pointer being
non-null. -/
structure State where
  a : Nat
  f : Nat
  b : Nat
  c : Nat
  d : Nat
  e : Nat
  h : Nat
  l : Nat
  pc : Nat
  sp : Nat
  ime : Bool
  pendingIME : Bool
  cycleCount : Nat
  mem : Mem
  ppuAttached : Bool
  cycleCounter : Nat
  vblankFlag : Bool
  lcdWasDisabled : Bool
  divCounter : Nat
  timaCounter : Nat
  scanlineCycles : Nat

namespace CPU

/-- Flag bit masks from cpu.h (FLAG_ZERO 0x80, FLAG_SUBTRACT 0x40,
FLAG_HALF_CARRY 0x20, FLAG_CARRY 0x10). -/
def FLAG_ZERO : Nat := 0x80
def FLAG_SUBTRACT : Nat := 0x40
def FLAG_HALF_CARRY : Nat := 0x20
def FLAG_CARRY : Nat := 0x10

/-- CPU::setFlag: sets or clears one flag bit in F, then forces the low
nibble of F to zero (`AF.low &= 0xF0`).  The C++ `~flag` on a byte is
`255 - flag` for the single-bit masks used. -/
def setFlag (s : State) (flag : Nat) (value : Bool) : State :=
  let f1 := if value then s.f ||| flag else s.f &&& (255 - flag)
  { s with f := f1 &&& 0xF0 }

/-- CPU::getFlag: `(AF.low & flag) != 0`. -/
def getFlag (s : State) (flag : Nat) : Bool := s.f &&& flag != 0

def setZeroFlag (s : State) (v : Bool) : State := setFlag s FLAG_ZERO v
def setSubtractFlag (s : State) (v : Bool) : State := setFlag s FLAG_SUBTRACT v
def setHalfCarryFlag (s : State) (v : Bool) : State := setFlag s FLAG_HALF_CARRY v
def setCarryFlag (s : State) (v : Bool) : State := setFlag s FLAG_CARRY v

def getZeroFlag (s : State) : Bool := getFlag s FLAG_ZERO
def getSubtractFlag (s : State) : Bool := getFlag s FLAG_SUBTRACT
def getHalfCarryFlag (s : State) : Bool := getFlag s FLAG_HALF_CARRY
def getCarryFlag (s : State) : Bool := getFlag s FLAG_CARRY

/-- CPU::push (cpu.cpp lines 67-72):
`SP--; writeByte(SP, value & 0xFF); SP--; writeByte(SP, (value >> 8) & 0xFF);`
so the LOW byte goes to SP-1 and the HIGH byte to SP-2, with 16-bit SP
wraparound on the decrements. -/
def push (s : State) (value : Nat) : State :=
  let sp1 := (s.sp + 65535) % 65536
  let m1 := s.mem.write sp1 (value &&& 0xFF)
  let sp2 := (sp1 + 65535) % 65536
  let m2 := m1.write sp2 ((value >>> 8) &&& 0xFF)
  { s with sp := sp2, mem := m2 }

/-- CPU::pop (cpu.cpp lines 74-78):
`low = readByte(SP++); high = readByte(SP++); return (high << 8) | low;`
(both reads return bytes, so the bit-or equals `high * 256 + low`). -/
def pop (s : State) : State × Nat :=
  let low := s.mem.read s.sp
  let sp1 := (s.sp + 1) % 65536
  let high := s.mem.read sp1
  let sp2 := (sp1 + 1) % 65536
  ({ s with sp := sp2 }, (high <<< 8) ||| low)

/-- CPU::CYCLE_TABLE from cpu.h lines 124-157: the static per-opcode cycle
table the interpreter initialises `cycles` from. -/
def CYCLE_TABLE : List Nat := [
    4, 12, 8, 8, 4, 4, 8, 4, 20, 8, 8, 8, 4, 4, 8, 4,  -- 0x00
    4, 12, 8, 8, 4, 4, 8, 4, 12, 8, 8, 8, 4, 4, 8, 4,  -- 0x10
    8, 12, 8, 8, 4, 4, 8, 4, 12, 8, 8, 8, 4, 4, 8, 4,  -- 0x20
    8, 12, 8, 8, 4, 4, 8, 4, 12, 8, 8, 8, 4, 4, 8, 4,  -- 0x30
    4, 4, 4, 4, 4, 4, 8, 4, 4, 4, 4, 4, 4, 4, 8, 4,  -- 0x40
    4, 4, 4, 4, 4, 4, 8, 4, 4, 4, 4, 4, 4, 4, 8, 4,  -- 0x50
    4, 4, 4, 4, 4, 4, 8, 4, 4, 4, 4, 4, 4, 4, 8, 4,  -- 0x60
    4, 4, 4, 4, 4, 4, 8, 4, 4, 4, 4, 4, 4, 4, 8, 4,  -- 0x70
    4, 4, 4, 4, 4, 4, 4, 4, 4, 4, 4, 4, 4, 4, 4, 4,  -- 0x80
    4, 4, 4, 4, 4, 4, 4, 4, 4, 4, 4, 4, 4, 4, 4, 4,  -- 0x90
    4, 4, 4, 4, 4, 4, 4, 4, 4, 4, 4, 4, 4, 4, 4, 4,  -- 0xA0
    4, 4, 4, 4, 4, 4, 4, 4, 4, 4, 4, 4, 4, 4, 4, 4,  -- 0xB0
    8, 12, 12, 12, 12, 16, 8, 16, 8, 16, 16, 16, 12, 16, 8, 16,  -- 0xC0
    8, 12, 12, 12, 12, 16, 8, 16, 8, 16, 16, 16, 12, 16, 8, 16,  -- 0xD0
    12, 12, 8, 12, 8, 16, 8, 16, 16, 4, 16, 4, 8, 8, 8, 8,  -- 0xE0
    12, 12, 8, 12, 8, 16, 8, 16, 12, 4, 16, 4, 8, 8, 8, 8  -- 0xF0
]

/-- CPU::CB_CYCLE_TABLE from cpu.h lines 160-193: cycle costs for 0xCB
prefixed opcodes. -/
def CB_CYCLE_TABLE : List Nat := [
    8, 8, 8, 8, 8, 8, 16, 8, 8, 8, 8, 8, 8, 8, 16, 8,  -- 0x00
    8, 8, 8, 8, 8, 8, 16, 8, 8, 8, 8, 8, 8, 8, 16, 8,  -- 0x10
    8, 8, 8, 8, 8, 8, 16, 8, 8, 8, 8, 8, 8, 8, 16, 8,  -- 0x20
    8, 8, 8, 8, 8, 8, 16, 8, 8, 8, 8, 8, 8, 8, 16, 8,  -- 0x30
    8, 8, 8, 8, 8, 8, 12, 8, 8, 8, 8, 8, 8, 8, 12, 8,  -- 0x40
    8, 8, 8, 8, 8, 8, 12, 8, 8, 8, 8, 8, 8, 8, 12, 8,  -- 0x50
    8, 8, 8, 8, 8, 8, 12, 8, 8, 8, 8, 8, 8, 8, 12, 8,  -- 0x60
    8, 8, 8, 8, 8, 8, 12, 8, 8, 8, 8, 8, 8, 8, 12, 8,  -- 0x70
    8, 8, 8, 8, 8, 8, 16, 8, 8, 8, 8, 8, 8, 8, 16, 8,  -- 0x80
    8, 8, 8, 8, 8, 8, 16, 8, 8, 8, 8, 8, 8, 8, 16, 8,  -- 0x90
    8, 8, 8, 8, 8, 8, 16, 8, 8, 8, 8, 8, 8, 8, 16, 8,  -- 0xA0
    8, 8, 8, 8, 8, 8, 16, 8, 8, 8, 8, 8, 8, 8, 16, 8,  -- 0xB0
    8, 8, 8, 8, 8, 8, 16, 8, 8, 8, 8, 8, 8, 8, 16, 8,  -- 0xC0
    8, 8, 8, 8, 8, 8, 16, 8, 8, 8, 8, 8, 8, 8, 16, 8,  -- 0xD0
    8, 8, 8, 8, 8, 8, 16, 8, 8, 8, 8, 8, 8, 8, 16, 8,  -- 0xE0
    8, 8, 8, 8, 8, 8, 16, 8, 8, 8, 8, 8, 8, 8, 16, 8  -- 0xF0
]

/-- Per-opcode cycle costs that the big switch of `CPU::step` hard-codes
inline, transcribed case by case from cpu.cpp (the switch begins at line
275).  Each entry is `(untaken, taken)`: for unconditional opcodes the two
components are equal; for conditional JR/JP/CALL/RET the first component is
the branch-not-taken cost and the second the branch-taken cost, exactly the
literals assigned to `cycles` inside the case.  Cases that assign nothing
(0x17, 0x1F, 0x81, 0xAD) keep the `CYCLE_TABLE` value `cycles` was
initialised from; opcodes with no case at all fall to the `default:` branch
which assigns 4 (as does the explicit `case 0xFC`).  The 0xCB entry is
never used: the CB prefix case reassigns `cycles = CB_CYCLE_TABLE[cbOpcode]`
(see `stepCycles`). -/
def baseInlineCycles : List (Nat × Nat) := [
    (4, 4), (12, 12), (8, 8), (8, 8), (4, 4), (4, 4), (8, 8), (4, 4), (20, 20), (8, 8), (8, 8), (8, 8), (4, 4), (4, 4), (8, 8), (4, 4),  -- 0x00
    (4, 4), (12, 12), (8, 8), (8, 8), (4, 4), (4, 4), (8, 8), (4, 4), (12, 12), (8, 8), (8, 8), (8, 8), (4, 4), (4, 4), (8, 8), (4, 4),  -- 0x10
    (8, 12), (12, 12), (8, 8), (8, 8), (4, 4), (4, 4), (8, 8), (4, 4), (8, 12), (8, 8), (8, 8), (8, 8), (4, 4), (4, 4), (8, 8), (4, 4),  -- 0x20
    (8, 12), (12, 12), (8, 8), (8, 8), (12, 12), (12, 12), (12, 12), (4, 4), (8, 12), (8, 8), (8, 8), (8, 8), (4, 4), (4, 4), (8, 8), (4, 4),  -- 0x30
    (4, 4), (4, 4), (4, 4), (4, 4), (4, 4), (4, 4), (8, 8), (4, 4), (4, 4), (4, 4), (4, 4), (4, 4), (4, 4), (4, 4), (8, 8), (4, 4),  -- 0x40
    (4, 4), (4, 4), (4, 4), (4, 4), (4, 4), (4, 4), (8, 8), (4, 4), (4, 4), (4, 4), (4, 4), (4, 4), (4, 4), (4, 4), (8, 8), (4, 4),  -- 0x50
    (4, 4), (4, 4), (4, 4), (4, 4), (4, 4), (4, 4), (8, 8), (4, 4), (4, 4), (4, 4), (4, 4), (4, 4), (4, 4), (4, 4), (8, 8), (4, 4),  -- 0x60
    (8, 8), (8, 8), (8, 8), (8, 8), (8, 8), (8, 8), (4, 4), (8, 8), (4, 4), (4, 4), (4, 4), (4, 4), (4, 4), (4, 4), (8, 8), (4, 4),  -- 0x70
    (4, 4), (4, 4), (4, 4), (4, 4), (4, 4), (4, 4), (8, 8), (4, 4), (4, 4), (4, 4), (4, 4), (4, 4), (4, 4), (4, 4), (8, 8), (4, 4),  -- 0x80
    (4, 4), (4, 4), (4, 4), (4, 4), (4, 4), (4, 4), (8, 8), (4, 4), (4, 4), (4, 4), (4, 4), (4, 4), (4, 4), (4, 4), (8, 8), (4, 4),  -- 0x90
    (4, 4), (4, 4), (4, 4), (4, 4), (4, 4), (4, 4), (8, 8), (4, 4), (4, 4), (4, 4), (4, 4), (4, 4), (4, 4), (4, 4), (8, 8), (4, 4),  -- 0xA0
    (4, 4), (4, 4), (4, 4), (4, 4), (4, 4), (4, 4), (8, 8), (4, 4), (4, 4), (4, 4), (4, 4), (4, 4), (4, 4), (4, 4), (8, 8), (4, 4),  -- 0xB0
    (8, 20), (12, 12), (12, 16), (16, 16), (12, 24), (16, 16), (8, 8), (16, 16), (8, 20), (16, 16), (12, 16), (16, 16), (12, 24), (24, 24), (8, 8), (16, 16),  -- 0xC0
    (8, 20), (12, 12), (12, 16), (4, 4), (12, 24), (16, 16), (8, 8), (16, 16), (8, 20), (16, 16), (12, 16), (4, 4), (12, 24), (4, 4), (8, 8), (16, 16),  -- 0xD0
    (12, 12), (12, 12), (8, 8), (4, 4), (4, 4), (16, 16), (8, 8), (16, 16), (16, 16), (4, 4), (16, 16), (4, 4), (4, 4), (4, 4), (8, 8), (16, 16),  -- 0xE0
    (12, 12), (12, 12), (8, 8), (4, 4), (4, 4), (16, 16), (8, 8), (16, 16), (12, 12), (8, 8), (16, 16), (4, 4), (4, 4), (4, 4), (8, 8), (16, 16)  -- 0xF0
]

/-- Projection of the cycle accounting of `CPU::step`: the cost it returns
for one instruction (before any interrupt-dispatch surcharge).  The 0xCB
prefix takes its cost from `CB_CYCLE_TABLE`; every other opcode takes the
inline literal of its switch case (`baseInlineCycles`). -/
def stepCycles (opcode cbOpcode : Nat) (taken : Bool) : Nat :=
  if opcode == 0xCB then CB_CYCLE_TABLE.getD (cbOpcode % 256) 0
  else
    let p := baseInlineCycles.getD (opcode % 256) (4, 4)
    if taken then p.2 else p.1

/-- Switch body of CPU::step (cpu.cpp lines 275-2841), restricted to the
opcodes the claims under verification exercise; `s.pc` already points past
the fetched opcode byte (the fetch did `PC++`).  Returns the updated state
and the `cycles` value of the case, or `none` for an opcode outside the
embedded subset. -/
def execOpcode (s : State) (opcode : Nat) : Option (State × Nat) :=
  match opcode with
  | 0x00 =>  -- NOP
      some (s, 4)
  | 0xC3 =>  -- JP nn: address = readWord(PC); PC += 2; PC = address
      let address := s.mem.readWord s.pc
      let s1 := { s with pc := (s.pc + 2) % 65536 }
      some ({ s1 with pc := address }, 16)
  | 0x76 =>  -- HALT (cpu.cpp lines 308-329)
      let ie := s.mem.read 0xFFFF
      let iflag := s.mem.read 0xFF0F
      if !s.ime && (ie &&& iflag == 0) then
        -- commented in the source as the HALT bug: advance PC like NOP
        some ({ s with pc := (s.pc + 1) % 65536 }, 4)
      else
        -- commented in the source as normal HALT: do not advance PC
        some (s, 4)
  | 0xFB =>  -- EI: pendingIME = true
      some ({ s with pendingIME := true }, 4)
  | 0xF3 =>  -- DI: IME = false; pendingIME = false
      some ({ s with ime := false, pendingIME := false }, 4)
  | 0xD9 =>  -- RETI: PC = pop(); IME = true; pendingIME = false
      let r := pop s
      some ({ r.1 with pc := r.2, ime := true, pendingIME := false }, 16)
  | 0xD6 =>  -- SUB d8 (cpu.cpp lines 529-544)
      let value := s.mem.read s.pc
      let s1 := { s with pc := (s.pc + 1) % 65536 }
      let aValue := s1.a
      -- uint8_t result = aValue - value (wraps modulo 256)
      let result := (aValue + 256 - value) % 256
      let s2 := { s1 with a := result &&& 0xFF }
      let s3 := setZeroFlag s2 (result &&& 0xFF == 0)
      let s4 := setSubtractFlag s3 true
      let s5 := setHalfCarryFlag s4 (((aValue ^^^ value ^^^ result) &&& 0x10) != 0)
      let s6 := setCarryFlag s5 (decide (aValue < value))
      some (s6, 8)
  | 0xFE =>  -- CP d8 (cpu.cpp lines 588-604)
      let value := s.mem.read s.pc
      let s1 := { s with pc := (s.pc + 1) % 65536 }
      let aValue := s1.a
      -- uint8_t result = aValue - value (not stored back into A)
      let result := (aValue + 256 - value) % 256
      let s2 := setZeroFlag s1 (result == 0)
      let s3 := setSubtractFlag s2 true
      let s4 := setHalfCarryFlag s3 (decide (aValue &&& 0x0F < value &&& 0x0F))
      let s5 := setCarryFlag s4 (decide (aValue < value))
      some (s5, 8)
  | 0xE0 =>  -- LDH (a8),A (cpu.cpp lines 661-669): reads the immediate,
             -- then ignores the I/O write entirely (store to nowhere)
      let _ioAddr := s.mem.read s.pc
      let s1 := { s with pc := (s.pc + 1) % 65536 }
      some (s1, 12)
  | _ => none

/-- Fetch/decode part of CPU::step (cpu.cpp lines 150-153): read the opcode
at PC, increment PC, then run the switch.  This is `step()` WITHOUT the
epilogue (timer, PPU, interrupt check); `step` below adds it. -/
def stepInstr (s : State) : Option (State × Nat) :=
  let opcode := s.mem.read s.pc
  execOpcode { s with pc := (s.pc + 1) % 65536 } opcode

/-- CPU::serviceInterrupt (cpu.cpp lines 2941-2955): clear the IF bit,
push PC, jump to the vector, drop IME. -/
def serviceInterrupt (s : State) (vector bit : Nat) : State :=
  let ifv := s.mem.read 0xFF0F
  -- IF &= ~(1 << bit); on a byte ~mask is 255 - mask for the single-bit masks used
  let s1 := { s with mem := s.mem.write 0xFF0F (ifv &&& (255 - (1 <<< bit))) }
  let s2 := push s1 s1.pc
  { s2 with pc := vector, ime := false }

/-- Priority cascade of CPU::checkInterrupts: the bit index serviced for a
given `fired = IE & IF` byte (bits 0..4 checked in that order). -/
def firedIndex (fired : Nat) : Nat :=
  if fired &&& 0x01 != 0 then 0
  else if fired &&& 0x02 != 0 then 1
  else if fired &&& 0x04 != 0 then 2
  else if fired &&& 0x08 != 0 then 3
  else 4

/-- CPU::checkInterrupts (cpu.cpp lines 2917-2938): first promote a pending
EI to IME, then if IME and some enabled interrupt is pending, service the
lowest-numbered bit of `IE & IF` and report true. -/
def checkInterrupts (s : State) : Bool × State :=
  let s1 := if s.pendingIME then { s with ime := true, pendingIME := false } else s
  if s1.ime && (s1.mem.read 0xFFFF &&& s1.mem.read 0xFF0F != 0) then
    let fired := s1.mem.read 0xFFFF &&& s1.mem.read 0xFF0F
    let s2 :=
      if fired &&& 0x01 != 0 then serviceInterrupt s1 0x40 0
      else if fired &&& 0x02 != 0 then serviceInterrupt s1 0x48 1
      else if fired &&& 0x04 != 0 then serviceInterrupt s1 0x50 2
      else if fired &&& 0x08 != 0 then serviceInterrupt s1 0x58 3
      else if fired &&& 0x10 != 0 then serviceInterrupt s1 0x60 4
      else s1
    (true, s2)
  else (false, s1)

/-- CPU::updateTimer (cpu.cpp lines 102-148): DIV every 256 cycles, TIMA at
the TAC-selected rate with the TMA reload and the IF bit 2 request on
overflow.  The function-local statics `divCounter` / `timaCounter` live in
the state. -/
def updateTimer (s : State) (cycles : Nat) : State :=
  let dc := s.divCounter + cycles
  let s1 :=
    if dc >= 256 then
      let div := s.mem.read 0xFF04
      { s with divCounter := dc - 256, mem := s.mem.write 0xFF04 (div + 1) }
    else { s with divCounter := dc }
  let tac := s1.mem.read 0xFF07
  if tac &&& 0x04 != 0 then
    let frequency : Nat :=
      if tac &&& 0x03 == 0 then 1024
      else if tac &&& 0x03 == 1 then 16
      else if tac &&& 0x03 == 2 then 64
      else 256
    let tc := s1.timaCounter + cycles
    if tc >= frequency then
      let tima := s1.mem.read 0xFF05
      if tima == 0xFF then
        let tma := s1.mem.read 0xFF06
        let m1 := s1.mem.write 0xFF05 tma
        let ifreg := Mem.read m1 0xFF0F
        { s1 with timaCounter := tc - frequency, mem := m1.write 0xFF0F (ifreg ||| 0x04) }
      else
        { s1 with timaCounter := tc - frequency, mem := s1.mem.write 0xFF05 (tima + 1) }
    else { s1 with timaCounter := tc }
  else s1

/-- CPU::updatePPUTiming (cpu.cpp lines 2871-2914): a SECOND scanline
scheduler, independent of PPU::step, keyed on its own static
`scanlineCycles`; one `if` (not a loop), so it advances LY by at most one
line per call, raising VBlank (IF bit 0) when its own counter carries LY
to 144. -/
def updatePPUTiming (s : State) (cycles : Nat) : State :=
  let sc := s.scanlineCycles + cycles
  if sc >= 456 then
    let sc2 := sc - 456
    let currentLY := s.mem.read 0xFF44
    -- uint8_t newLY = currentLY + 1, then wrap above 153
    let newLY0 := (currentLY + 1) % 256
    let newLY := if newLY0 > 153 then 0 else newLY0
    let m1 := s.mem.write 0xFF44 newLY
    let stat0 := Mem.read m1 0xFF41 &&& 0xFC
    if newLY < 144 then
      { s with scanlineCycles := sc2, mem := m1.write 0xFF41 (stat0 ||| 0x00) }
    else if newLY == 144 then
      let m2 := m1.write 0xFF0F (Mem.read m1 0xFF0F ||| 0x01)
      { s with scanlineCycles := sc2, mem := m2.write 0xFF41 (stat0 ||| 0x01) }
    else
      { s with scanlineCycles := sc2, mem := m1.write 0xFF41 (stat0 ||| 0x01) }
  else { s with scanlineCycles := sc }

end CPU

namespace PPU

/-- LCD timing constants from ppu.h. -/
def CYCLES_PER_LINE : Nat := 456
def CYCLES_OAM : Nat := 80
def CYCLES_TRANSFER : Nat := 172
def VISIBLE_LINES : Nat := 144
def TOTAL_LINES : Nat := 154

/-- Scanline-advance loop of PPU::step (ppu.cpp lines 374-422):
`while (cycleCounter >= CYCLES_PER_LINE)` advance one line, with the VBlank
IF request at LY 144, the wrap (and `render()`, which only draws) at line
154, the LY write, the LYC coincidence bit and the new-line mode bits.
The loop consumes 456 cycles per iteration, so `fuel := cycleCounter`
iterations always suffice; the state threaded through is
`(cycleCounter, ly, stat, vblankFlag, memory)`. -/
def stepLines (fuel : Nat) (cc ly stat lyc : Nat) (vbf : Bool) (m : Mem) :
    Nat × Nat × Nat × Bool × Mem :=
  match fuel with
  | 0 => (cc, ly, stat, vbf, m)
  | fuel + 1 =>
    if cc >= CYCLES_PER_LINE then
      let cc1 := cc - CYCLES_PER_LINE
      let ly1 := (ly + 1) % 256     -- uint8_t ly++
      let vm :=
        if ly1 == VISIBLE_LINES then
          (true, m.write 0xFF0F (m.read 0xFF0F ||| 0x01))
        else (vbf, m)
      let lv := if ly1 >= TOTAL_LINES then ((0 : Nat), false) else (ly1, vm.1)
      let m2 := vm.2.write 0xFF44 lv.1
      let stat1 := if lv.1 == lyc then stat ||| 0x04 else stat &&& (255 - 0x04)
      let mode := if lv.1 >= VISIBLE_LINES then 0x01 else 0x02
      let stat2 := (stat1 &&& 0xFC) ||| mode
      let m3 := m2.write 0xFF41 stat2
      stepLines fuel cc1 lv.1 stat2 lyc lv.2 m3
    else (cc, ly, stat, vbf, m)

/-- PPU::step (ppu.cpp lines 335-478): LCD-disabled reset (guarded by the
static `lcdWasDisabled`, so it happens only once), cycle accumulation, the
scanline loop, then the within-line mode update (mode 2 for cycles 0..79,
mode 3 for 80..251, mode 0 for 252..455 on visible lines; mode 1 on VBlank
lines) and the STAT interrupt requests. -/
def step (s : State) (cycles : Nat) : State :=
  let lcdc := s.mem.read 0xFF40
  let ly0 := s.mem.read 0xFF44
  if lcdc &&& 0x80 == 0 then
    if !s.lcdWasDisabled then
      let m1 := s.mem.write 0xFF44 0
      let m2 := m1.write 0xFF41 (Mem.read m1 0xFF41 &&& 0xFC)
      { s with cycleCounter := 0, mem := m2, lcdWasDisabled := true }
    else s
  else
    let cc0 := s.cycleCounter + cycles
    let stat0 := s.mem.read 0xFF41
    let lyc := s.mem.read 0xFF45
    let r := stepLines cc0 cc0 ly0 stat0 lyc s.vblankFlag s.mem
    let cc1 := r.1
    let ly1 := r.2.1
    let vbf1 := r.2.2.2.1
    let m1 := r.2.2.2.2
    if ly1 < VISIBLE_LINES then
      let mode : Nat :=
        if cc1 < CYCLES_OAM then 0x02
        else if cc1 < CYCLES_OAM + CYCLES_TRANSFER then 0x03
        else 0x00
      let currentStat := Mem.read m1 0xFF41
      let newStat := (currentStat &&& 0xFC) ||| mode
      let m2 := if newStat != currentStat then m1.write 0xFF41 newStat else m1
      let statInterrupt :=
        (currentStat &&& 0x08 != 0 && mode == 0x00) ||
        ((currentStat &&& 0x20 != 0 && mode == 0x02) ||
         (currentStat &&& 0x40 != 0 && currentStat &&& 0x04 != 0))
      let m3 :=
        if statInterrupt then m2.write 0xFF0F (Mem.read m2 0xFF0F ||| 0x02) else m2
      { s with cycleCounter := cc1, vblankFlag := vbf1, mem := m3 }
    else
      let currentStat := Mem.read m1 0xFF41
      let newStat := (currentStat &&& 0xFC) ||| 0x01
      let m2 := if newStat != currentStat then m1.write 0xFF41 newStat else m1
      let m3 :=
        if currentStat &&& 0x10 != 0 then m2.write 0xFF0F (Mem.read m2 0xFF0F ||| 0x02) else m2
      { s with cycleCounter := cc1, vblankFlag := vbf1, mem := m3 }

/-- PPU::beginFrame (ppu.cpp lines 481-500), the frame-ready signal polled
by the host: true at the start of VBlank (LY 144, mode 1) OR -- a hack the
source marks TEMPORARY, for testing -- on every LY divisible by 5. -/
def beginFrame (s : State) : Bool :=
  let ly := s.mem.read 0xFF44
  let stat := s.mem.read 0xFF41
  (ly == VISIBLE_LINES && (stat &&& 0x03) == 0x01) || (ly % 5 == 0)

end PPU

namespace CPU

/-- CPU::step in full (cpu.cpp lines 150-2868): fetch/decode/execute one
instruction, then the epilogue -- accumulate `cycleCount` (a uint32
counter), update the timer, drive the attached PPU, check interrupts (a
serviced dispatch adds 20 cycles), and drive the second scanline scheduler
`updatePPUTiming` with the final cycle count. -/
def step (s : State) : Option (State × Nat) :=
  match stepInstr s with
  | none => none
  | some p =>
    let s1 := p.1
    let cycles := p.2
    let s2 := { s1 with cycleCount := (s1.cycleCount + cycles) % 4294967296 }
    let s3 := updateTimer s2 cycles
    let s4 := if s3.ppuAttached then PPU.step s3 cycles else s3
    let r := checkInterrupts s4
    let cycles2 := if r.1 then cycles + 20 else cycles
    let s5 := updatePPUTiming r.2 cycles2
    some (s5, cycles2)

end CPU

/-- Base state with all registers, counters and memory zero; concrete
scenarios below override the fields they need. -/
def zeroState : State where
  a := 0
  f := 0
  b := 0
  c := 0
  d := 0
  e := 0
  h := 0
  l := 0
  pc := 0
  sp := 0
  ime := false
  pendingIME := false
  cycleCount := 0
  mem := fun _ => 0
  ppuAttached := false
  cycleCounter := 0
  vblankFlag := false
  lcdWasDisabled := false
  divCounter := 0
  timaCounter := 0
  scanlineCycles := 0

/-- A state with only the LCD enabled (LCDC bit 7 set), for exercising
PPU::step on a concrete input. -/
def ppuOnState : State :=
  { zeroState with
    mem := Mem.write zeroState.mem 0xFF40 0x91 }

/-- A state with the LCD enabled and LY = 5 mid-frame, both scanline
counters (the PPU's `cycleCounter` and the CPU's static `scanlineCycles`)
2 cycles short of a line boundary, a NOP at PC, the PPU attached and the
timer and interrupts quiescent. -/
def doubleTickState : State :=
  { zeroState with
    mem := (Mem.write zeroState.mem 0xFF40 0x91).write 0xFF44 5
    ppuAttached := true
    cycleCounter := 454
    scanlineCycles := 454 }

/-- The state the NOP at doubleTickState's PC retires into. -/
def c10After : State :=
  { doubleTickState with
    pc := 1 }

/-- A state with an LDH (a8),A opcode (0xE0) at PC. -/
def ldhState : State :=
  { zeroState with
    mem := Mem.write zeroState.mem 0 0xE0 }

/-- A quiescent state in which EI has just set pendingIME. -/
def eiPendingState : State :=
  { zeroState with
    pendingIME := true }

/-- A state with IME on, IE = 0x02 and IF = 0x03 pending, a NOP at PC and
a usable stack, for exercising the interrupt dispatch path of step. -/
def c4State : State :=
  { zeroState with
    pc := 0x0100
    sp := 0xFFFE
    ime := true
    mem := (Mem.write zeroState.mem 0xFFFF 2).write 0xFF0F 3 }

/-- The state and cycle count produced by SUB d8 from the zero state. -/
def subOutcome : State × Nat := (CPU.execOpcode zeroState 0xD6).getD (zeroState, 0)

/-- The state and cycle count produced by CP d8 from the zero state. -/
def cpOutcome : State × Nat := (CPU.execOpcode zeroState 0xFE).getD (zeroState, 0)

theorem and_255_eq_mod (x : Nat) : x &&& 255 = x % 256 := by
  simpa using Nat.and_pow_two_sub_one_eq_mod x 8

theorem shiftRight_8_eq_div (x : Nat) : x >>> 8 = x / 256 := by
  simpa using Nat.shiftRight_eq_div_pow x 8

theorem or_shiftLeft8_eq (hi lo : Nat) (hlo : lo < 256) :
    (hi <<< 8) ||| lo = hi * 256 + lo := by
  rw [Nat.shiftLeft_eq]
  have hlo8 : lo < 2 ^ 8 := by norm_num [hlo]
  have h := Nat.mul_add_lt_is_or hlo8 hi
  calc hi * 2 ^ 8 ||| lo = 2 ^ 8 * hi ||| lo := by rw [Nat.mul_comm]
    _ = 2 ^ 8 * hi + lo := h.symm
    _ = hi * 256 + lo := by norm_num [Nat.mul_comm]

/-- C2 (amended): `push(x); pop()` restores SP, but the round trip returns
the BYTE-SWAP of x, because `CPU::push` writes the low byte to SP-1 and the
high byte to SP-2 while `CPU::pop` builds `(mem[SP+1] << 8) | mem[SP]`. -/
theorem C2_push_pop_swaps_bytes (s : State) (x : Nat)
    (hx : x < 65536) (hsp : s.sp < 65536) :
    (CPU.pop (CPU.push s x)).2 = x % 256 * 256 + x / 256 ∧
    (CPU.pop (CPU.push s x)).1.sp = s.sp ∧
    Mem.read (CPU.push s x).mem ((s.sp + 65535) % 65536) = x % 256 ∧
    Mem.read (CPU.push s x).mem ((s.sp + 65534) % 65536) = x / 256 := by
  have hdiv : ((x >>> 8) &&& 255) % 256 = x / 256 := by
    rw [shiftRight_8_eq_div, and_255_eq_mod]; omega
  have hmod : (x &&& 255) % 256 % 256 = x % 256 := by
    rw [and_255_eq_mod]; omega
  have e1 : ((s.sp + 65535) % 65536 + 65535) % 65536 = (s.sp + 65534) % 65536 := by omega
  have e2 : ((s.sp + 65534) % 65536 + 1) % 65536 = (s.sp + 65535) % 65536 := by omega
  have e3 : ((s.sp + 65535) % 65536 + 1) % 65536 = s.sp := by omega
  have hne : (s.sp + 65535) % 65536 ≠ (s.sp + 65534) % 65536 := by omega
  unfold CPU.pop CPU.push Mem.read Mem.write
  simp only [e1, e2, e3, if_pos rfl, if_neg hne, hdiv, hmod]
  have hdm : x / 256 % 256 = x / 256 := by omega
  simp only [if_true, hmod, hdm]
  rw [or_shiftLeft8_eq _ _ (by omega)]
  simp

/-- C2 counterexample: at SP = 0xFFFE, pushing 0x1234 and popping returns
0x3412, refuting `push(x); pop() == x`. -/
theorem C2_counterexample :
    (CPU.pop (CPU.push { zeroState with sp := 0xFFFE } 0x1234)).2 = 0x3412 ∧
    (0x3412 : Nat) ≠ 0x1234 := by
  constructor
  · decide
  · decide

/-- C9: LDH (a8),A (0xE0) consumes the immediate byte and returns 12
cycles, but performs no memory write at all: the result state carries the
same memory (hence the byte at 0xFF00+a8 and every other location is
unchanged), only PC moved past opcode and immediate. -/
theorem C9_ldh_a8_writes_nothing (s : State) (hop : s.mem.read s.pc = 0xE0) :
    CPU.stepInstr s = some ({ s with pc := (s.pc + 2) % 65536 }, 12) := by
  have hpc : ((s.pc + 1) % 65536 + 1) % 65536 = (s.pc + 2) % 65536 := by omega
  unfold CPU.stepInstr
  rw [hop]
  unfold CPU.execOpcode
  simp [hpc]

/-- C1 evaluated at the failing input: HALT at 0x0100 with IME=false and
IE=IF=0 advances PC to 0x0102 (the byte after HALT is skipped and the CPU
does not stay halted), and with IME=false, IE=IF=1 (the real HALT-bug
condition) PC simply moves to 0x0101 with no double fetch of the next
opcode -- the code has no halted flag at all. -/
theorem C1_halt_no_halt_no_bug :
    (CPU.stepInstr { zeroState with
        pc := 0x0100,
        mem := fun a => if a = 0x0100 then 0x76 else 0 }).map
      (fun p => (p.1.pc, p.2)) = some (0x0102, 4) ∧
    (CPU.stepInstr { zeroState with
        pc := 0x0100,
        mem := fun a => if a = 0x0100 then 0x76
          else if a = 0xFFFF then 1 else if a = 0xFF0F then 1 else 0 }).map
      (fun p => (p.1.pc, p.2)) = some (0x0101, 4) := by
  constructor
  · decide
  · decide

/-- C5 evaluated at the failing input: the frame-ready signal
`PPU::beginFrame` returns true at LY=0 (mode 2) and again at LY=5, far
from the 144 -> VBlank transition, because of the every-5-scanlines hack
the source marks as temporary. -/
theorem C5_beginFrame_fires_off_vblank :
    PPU.beginFrame { zeroState with
      mem := fun a => if a = 0xFF44 then 0 else if a = 0xFF41 then 2 else 0 } = true ∧
    PPU.beginFrame { zeroState with
      mem := fun a => if a = 0xFF44 then 5 else if a = 0xFF41 then 0 else 0 } = true ∧
    (0 : Nat) ≠ 144 ∧ (5 : Nat) ≠ 144 := by
  refine ⟨by decide, by decide, by decide, by decide⟩

/-- C6 counterexample: executing JP a16 (0xC3) returns 16 cycles, but
CYCLE_TABLE[0xC3] is 12: the case hard-codes its cost inline instead of
consulting the table. -/
theorem C6_counterexample :
    (CPU.stepInstr { zeroState with
        pc := 0x0100,
        mem := fun a => if a = 0x0100 then 0xC3
          else if a = 0x0101 then 0x50 else if a = 0x0102 then 0x01 else 0 }).map
      (fun p => p.2) = some 16 ∧
    CPU.CYCLE_TABLE.getD 0xC3 0 = 12 ∧ (16 : Nat) ≠ 12 := by
  refine ⟨by decide, by decide, by decide⟩

/-- C6 (amended): every cost the interpreter can return is a multiple of 4
-- all inline case costs, both branches, and the whole CB table -- but the
interpreter does NOT consult CYCLE_TABLE for its final answer: each case
overrides `cycles` inline (see `baseInlineCycles`, which disagrees with
`CYCLE_TABLE` on many opcodes, e.g. 0xC3).  The third conjunct checks the
multiple-of-4 property on the executable embedding of step. -/
theorem C6_cycles_multiple_of_four :
    (CPU.baseInlineCycles.all fun p => p.1 % 4 == 0 && p.2 % 4 == 0) = true ∧
    (CPU.CB_CYCLE_TABLE.all fun x => x % 4 == 0) = true ∧
    (∀ s : State, ∀ p : State × Nat, CPU.stepInstr s = some p → p.2 % 4 = 0) := by
  refine ⟨by decide, by decide, ?_⟩
  intro s p hp
  simp only [CPU.stepInstr] at hp
  revert hp
  generalize { s with pc := (s.pc + 1) % 65536 : State } = t
  generalize s.mem.read s.pc = o
  intro hp
  unfold CPU.execOpcode at hp
  split at hp <;>
    (try simp only [Option.some.injEq] at hp) <;>
    (try split_ifs at hp) <;>
    first
      | (subst hp; simp)
      | (injection hp with h2; subst h2; simp)
      | injection hp

theorem all_range_iff {n : Nat} {p : Nat → Bool} (h : ((List.range n).all p) = true)
    {x : Nat} (hx : x < n) : p x = true := by
  rw [List.all_eq_true] at h
  exact h x (List.mem_range.mpr hx)

/-- Exhaustive check that the XOR-based half-borrow formula used by SUB d8
agrees with the nibble comparison used by CP d8 on every pair of bytes. -/
theorem subHC_check :
    ((List.range 256).all fun a => (List.range 256).all fun v =>
      (((a ^^^ v ^^^ ((a + 256 - v) % 256)) &&& 16 != 0) ==
        decide (a &&& 15 < v &&& 15))) = true := by decide

/-- The canonical borrow formula `((a ^ v ^ result) & 0x10) != 0` equals the
nibble comparison `(a & 0x0F) < (v & 0x0F)` for byte operands. -/
theorem sub_half_carry_formula {a v : Nat} (ha : a < 256) (hv : v < 256) :
    ((a ^^^ v ^^^ ((a + 256 - v) % 256)) &&& 16 != 0) =
      decide (a &&& 15 < v &&& 15) := by
  have h1 := all_range_iff subHC_check ha
  have h2 := all_range_iff h1 hv
  exact eq_of_beq h2

theorem setFlag_f (s : State) (flag : Nat) (v : Bool) :
    (CPU.setFlag s flag v).f =
      (if v then s.f ||| flag else s.f &&& (255 - flag)) &&& 0xF0 := rfl

theorem setFlag_a (s : State) (flag : Nat) (v : Bool) :
    (CPU.setFlag s flag v).a = s.a := rfl

/-- Bit 4 writes (the carry flag) never disturb bit 5 of F. -/
theorem carry_write_keeps_bit5 :
    ((List.range 256).all fun f => [true, false].all fun cb =>
      (((((if cb then f ||| 16 else f &&& 239) &&& 240) &&& 32) != 0) ==
        ((f &&& 32) != 0))) = true := by decide

/-- After a bit 5 write (the half-carry flag), bit 5 of F is that value. -/
theorem half_write_sets_bit5 :
    ((List.range 256).all fun f => [true, false].all fun hb =>
      (((((if hb then f ||| 32 else f &&& 223) &&& 240) &&& 32) != 0) == hb)) = true := by
  decide

theorem bool_all_pair {p : Bool → Bool} (h : ([true, false].all p) = true) (b : Bool) :
    p b = true := by
  rw [List.all_eq_true] at h
  cases b
  · exact h false (by simp)
  · exact h true (by simp)

theorem carry_write_bit5 {f : Nat} (hf : f < 256) (cb : Bool) :
    ((((if cb then f ||| 16 else f &&& 239) &&& 240) &&& 32) != 0) = ((f &&& 32) != 0) := by
  have h1 := all_range_iff carry_write_keeps_bit5 hf
  have h2 := bool_all_pair h1 cb
  exact eq_of_beq h2

theorem half_write_bit5 {f : Nat} (hf : f < 256) (hb : Bool) :
    ((((if hb then f ||| 32 else f &&& 223) &&& 240) &&& 32) != 0) = hb := by
  have h1 := all_range_iff half_write_sets_bit5 hf
  have h2 := bool_all_pair h1 hb
  exact eq_of_beq h2

/-- C7: CP d8 (0xFE) computes exactly the same F register as SUB d8 (0xD6)
on the same operand byte -- Z, N, H, C all equal, as the whole F byte --
while leaving A unchanged (SUB stores the difference into A), and the H
flag both set agrees with the canonical borrow formula
`((a ^ value ^ result) & 0x10) != 0`. -/
theorem C7_cp_flags_equal_sub (s : State) (ha : s.a < 256)
    (sSub sCp : State) (cS cC : Nat)
    (hS : CPU.execOpcode s 0xD6 = some (sSub, cS))
    (hC : CPU.execOpcode s 0xFE = some (sCp, cC)) :
    sCp.f = sSub.f ∧ sCp.a = s.a ∧
    sSub.a = (s.a + 256 - s.mem.read s.pc) % 256 ∧
    CPU.getHalfCarryFlag sCp =
      ((s.a ^^^ s.mem.read s.pc ^^^ ((s.a + 256 - s.mem.read s.pc) % 256)) &&& 16 != 0) ∧
    cS = 8 ∧ cC = 8 := by
  have hv : s.mem.read s.pc < 256 := by
    unfold Mem.read; exact Nat.mod_lt _ (by norm_num)
  have hr : (s.a + 256 - s.mem.read s.pc) % 256 < 256 := Nat.mod_lt _ (by norm_num)
  have hz : (((s.a + 256 - s.mem.read s.pc) % 256 &&& 255 : Nat) == 0) =
      (((s.a + 256 - s.mem.read s.pc) % 256 : Nat) == 0) := by
    rw [and_255_eq_mod, Nat.mod_eq_of_lt hr]
  have hh := sub_half_carry_formula ha hv
  simp only [CPU.execOpcode] at hS hC
  rw [Option.some.injEq, Prod.mk.injEq] at hS hC
  obtain ⟨hS1, hS2⟩ := hS
  obtain ⟨hC1, hC2⟩ := hC
  subst hS1
  subst hS2
  subst hC1
  subst hC2
  refine ⟨?_, ?_, ?_, ?_, rfl, rfl⟩
  · simp only [CPU.setCarryFlag, CPU.setHalfCarryFlag, CPU.setSubtractFlag,
      CPU.setZeroFlag, CPU.FLAG_CARRY, CPU.FLAG_HALF_CARRY, CPU.FLAG_SUBTRACT,
      CPU.FLAG_ZERO, setFlag_f, hz, hh]
  · simp only [CPU.setCarryFlag, CPU.setHalfCarryFlag, CPU.setSubtractFlag,
      CPU.setZeroFlag, setFlag_a]
  · simp only [CPU.setCarryFlag, CPU.setHalfCarryFlag, CPU.setSubtractFlag,
      CPU.setZeroFlag, setFlag_a]
    rw [and_255_eq_mod, Nat.mod_eq_of_lt hr]
  · have h240 : ∀ x : Nat, x &&& 240 < 256 := fun x =>
      lt_of_le_of_lt Nat.and_le_right (by norm_num)
    simp only [CPU.getHalfCarryFlag, CPU.getFlag, CPU.FLAG_HALF_CARRY,
      CPU.setCarryFlag, CPU.setHalfCarryFlag, CPU.setSubtractFlag,
      CPU.setZeroFlag, CPU.FLAG_CARRY, CPU.FLAG_SUBTRACT, CPU.FLAG_ZERO, setFlag_f]
    rw [carry_write_bit5 (h240 _), half_write_bit5 (h240 _)]
    exact hh.symm

/-- C3 counterexample: with IE=1 and IF=1 already pending, executing EI at
0x0100 dispatches the interrupt at the end of the EI step itself: the step
returns PC=0x0040, IME=false and 24 cycles, so the instruction following EI
never ran before the dispatch. -/
theorem C3_counterexample :
    (CPU.step { zeroState with
        pc := 0x0100,
        sp := 0xFFFE,
        mem := fun a => if a = 0x0100 then 0xFB
          else if a = 0xFFFF then 1 else if a = 0xFF0F then 1 else 0 }).map
      (fun p => (p.1.pc, p.1.ime, p.2)) = some (0x40, false, 24) := by
  decide

/-- C3 (amended): EI only sets pendingIME and leaves IME off; the promotion
to IME happens inside checkInterrupts, which runs at the end of the same
step (the boundary before the next fetch); DI clears both immediately and
RETI enables IME immediately.  BUT the same checkInterrupts call then tests
for pending interrupts right after promoting, so an interrupt already
pending when EI executes is dispatched at the end of the EI step itself,
before the following instruction executes (hence that instruction is NOT
always completed first). -/
theorem C3_ei_di_reti_semantics :
    (∀ s : State, CPU.execOpcode s 0xFB = some ({ s with pendingIME := true }, 4)) ∧
    (∀ s : State, s.pendingIME = true →
       s.mem.read 0xFFFF &&& s.mem.read 0xFF0F = 0 →
       CPU.checkInterrupts s = (false, { s with ime := true, pendingIME := false })) ∧
    (∀ s : State, s.pendingIME = true →
       s.mem.read 0xFFFF &&& s.mem.read 0xFF0F ≠ 0 →
       (CPU.checkInterrupts s).1 = true) ∧
    (∀ s : State, CPU.execOpcode s 0xF3 =
       some ({ s with ime := false, pendingIME := false }, 4)) ∧
    (∀ s : State, (CPU.execOpcode s 0xD9).map
       (fun p => (p.1.ime, p.1.pendingIME, p.2)) = some (true, false, 16)) := by
  refine ⟨fun s => rfl, ?_, ?_, fun s => rfl, fun s => rfl⟩
  · intro s hpend hz
    simp [CPU.checkInterrupts, hpend, hz]
  · intro s hpend hnz
    simp [CPU.checkInterrupts, hpend, hnz]

/-- C4 counterexample: IME=1, IE=0x02, IF=0x03.  The lowest-numbered set
bit of IF is bit 0, but the code services the lowest set bit of IE&IF
instead: it jumps to 0x0048 (not vector 0x0040) and leaves IF bit 0 set
(IF becomes 0x01 rather than 0x02). -/
theorem C4_counterexample :
    (CPU.checkInterrupts { zeroState with
        ime := true,
        sp := 0xFFFE,
        mem := fun a => if a = 0xFFFF then 2 else if a = 0xFF0F then 3 else 0 }).2.pc
      = 0x48 ∧
    Mem.read (CPU.checkInterrupts { zeroState with
        ime := true,
        sp := 0xFFFE,
        mem := fun a => if a = 0xFFFF then 2 else if a = 0xFF0F then 3 else 0 }).2.mem 0xFF0F
      = 1 ∧
    (0x48 : Nat) ≠ 0x40 ∧ (1 : Nat) ≠ 2 := by
  refine ⟨by decide, by decide, by decide, by decide⟩

/-- Bytes whose five low bits all test zero have `x &&& 31 = 0`. -/
theorem low5_zero_check :
    ((List.range 256).all fun x =>
      !(x &&& 1 == 0 && (x &&& 2 == 0 && (x &&& 4 == 0 && (x &&& 8 == 0 && x &&& 16 == 0)))) ||
      (x &&& 31 == 0)) = true := by decide

theorem low5_zero {x : Nat} (hx : x < 256) (h1 : x &&& 1 = 0) (h2 : x &&& 2 = 0)
    (h4 : x &&& 4 = 0) (h8 : x &&& 8 = 0) (h16 : x &&& 16 = 0) : x &&& 31 = 0 := by
  have h := all_range_iff low5_zero_check hx
  simp only [h1, h2, h4, h8, h16] at h
  simpa using h

/-- The cascade of checkInterrupts equals a serviceInterrupt at the
firedIndex of IE&IF, whenever some of the five low bits of IE&IF is set. -/
theorem checkInterrupts_dispatch (s : State) (hime : s.ime = true)
    (hpend : s.pendingIME = false)
    (hf : (s.mem.read 0xFFFF &&& s.mem.read 0xFF0F) &&& 0x1F ≠ 0) :
    CPU.checkInterrupts s =
      (true, CPU.serviceInterrupt s
        (0x40 + 8 * CPU.firedIndex (s.mem.read 0xFFFF &&& s.mem.read 0xFF0F))
        (CPU.firedIndex (s.mem.read 0xFFFF &&& s.mem.read 0xFF0F))) := by
  have hlt : s.mem.read 0xFFFF &&& s.mem.read 0xFF0F < 256 := by
    have : s.mem.read 0xFF0F < 256 := by
      unfold Mem.read; exact Nat.mod_lt _ (by norm_num)
    exact lt_of_le_of_lt Nat.and_le_right this
  have hnz : s.mem.read 0xFFFF &&& s.mem.read 0xFF0F ≠ 0 := by
    intro h
    rw [h] at hf
    simp at hf
  unfold CPU.checkInterrupts CPU.firedIndex
  rw [hpend]
  simp only [Bool.false_eq_true, if_false, hime, Bool.true_and]
  rw [if_pos (by rw [bne_iff_ne]; exact hnz)]
  split_ifs with h1 h2 h3 h4 h5 <;> try norm_num
  exfalso
  rw [bne_iff_ne, not_not] at h1 h2 h3 h4 h5
  have := low5_zero hlt h1 h2 h3 h4 h5
  exact hf this

/-- Observable effects of CPU::serviceInterrupt: vector into PC, IME off,
SP down by two, the IF bit cleared, and the two PC bytes on the stack (low
byte at SP-1 and high byte at SP-2, the push convention of this code). -/
theorem serviceInterrupt_spec (s : State) (vector bit : Nat)
    (hsp1 : 2 ≤ s.sp) (hsp2 : s.sp < 65536)
    (hne1 : s.sp - 1 ≠ 0xFF0F) (hne2 : s.sp - 2 ≠ 0xFF0F) :
    (CPU.serviceInterrupt s vector bit).pc = vector ∧
    (CPU.serviceInterrupt s vector bit).ime = false ∧
    (CPU.serviceInterrupt s vector bit).sp = s.sp - 2 ∧
    Mem.read (CPU.serviceInterrupt s vector bit).mem 0xFF0F =
      s.mem.read 0xFF0F &&& (255 - (1 <<< bit)) ∧
    Mem.read (CPU.serviceInterrupt s vector bit).mem (s.sp - 1) = s.pc &&& 0xFF ∧
    Mem.read (CPU.serviceInterrupt s vector bit).mem (s.sp - 2) = (s.pc >>> 8) &&& 0xFF := by
  have hb : ∀ x : Nat, x &&& 255 < 256 :=
    fun x => lt_of_le_of_lt Nat.and_le_right (by norm_num)
  have hifv : s.mem.read 0xFF0F &&& (255 - (1 <<< bit)) < 256 := by
    have : s.mem.read 0xFF0F < 256 := by
      unfold Mem.read; exact Nat.mod_lt _ (by norm_num)
    exact lt_of_le_of_lt Nat.and_le_left this
  have e1 : (s.sp + 65535) % 65536 = s.sp - 1 := by omega
  have e2 : (s.sp - 1 + 65535) % 65536 = s.sp - 2 := by omega
  have hne3 : s.sp - 1 ≠ s.sp - 2 := by omega
  unfold Mem.read at hifv
  have hbp := hb s.pc
  have hbq := hb (s.pc >>> 8)
  unfold CPU.serviceInterrupt CPU.push Mem.read Mem.write
  simp only [e1, e2]
  refine ⟨trivial, trivial, trivial, ?_, ?_, ?_⟩ <;>
    (split_ifs <;> omega)

/-- CPU::serviceInterrupt does not touch the scanlineCycles counter. -/
theorem serviceInterrupt_scanlineCycles (s : State) (v b : Nat) :
    (CPU.serviceInterrupt s v b).scanlineCycles = s.scanlineCycles := by
  unfold CPU.serviceInterrupt CPU.push
  rfl

/-- CPU::updateTimer is inert when TAC bit 2 is clear and the DIV counter
does not reach 256: only divCounter advances. -/
theorem updateTimer_inactive (s : State) (c : Nat)
    (htac : s.mem.read 0xFF07 &&& 0x04 = 0) (hdiv : s.divCounter + c < 256) :
    CPU.updateTimer s c = { s with divCounter := s.divCounter + c } := by
  simp only [CPU.updateTimer]
  rw [if_neg (by omega : ¬(s.divCounter + c ≥ 256))]
  rw [if_neg (by simp [htac])]

/-- CPU::updatePPUTiming is inert below the 456-cycle threshold: only
scanlineCycles advances. -/
theorem updatePPUTiming_small (s : State) (c : Nat)
    (h : s.scanlineCycles + c < 456) :
    CPU.updatePPUTiming s c = { s with scanlineCycles := s.scanlineCycles + c } := by
  simp only [CPU.updatePPUTiming]
  rw [if_neg (by omega : ¬(s.scanlineCycles + c ≥ 456))]

/-- C4 (amended): at the interrupt boundary that ends each step, with IME
set, pendingIME clear and some ENABLED interrupt pending
((IE & IF & 0x1F) != 0), the CPU clears the lowest-numbered set bit of
IE & IF (not of IF itself), pushes the post-fetch PC, jumps to
0x0040 + 8*index for that index, drops IME, and the step is charged 20
extra T-cycles (24 here: 4 for the NOP executed plus 20 for the dispatch).
The timer/PPU hypotheses keep the epilogue from touching the interrupt
registers in the same step. -/
theorem C4_interrupt_dispatch (s : State)
    (hop : s.mem.read s.pc = 0x00)
    (hime : s.ime = true) (hpend : s.pendingIME = false)
    (hppu : s.ppuAttached = false)
    (htac : s.mem.read 0xFF07 &&& 0x04 = 0)
    (hdiv : s.divCounter + 4 < 256)
    (hscan : s.scanlineCycles + 24 < 456)
    (hpc : s.pc + 1 < 65536)
    (hsp1 : 2 ≤ s.sp) (hsp2 : s.sp < 65536)
    (hne1 : s.sp - 1 ≠ 0xFF0F) (hne2 : s.sp - 2 ≠ 0xFF0F)
    (hfired : (s.mem.read 0xFFFF &&& s.mem.read 0xFF0F) &&& 0x1F ≠ 0) :
    ∃ s5 : State, CPU.step s = some (s5, 24) ∧
      s5.pc = 0x40 + 8 * CPU.firedIndex (s.mem.read 0xFFFF &&& s.mem.read 0xFF0F) ∧
      s5.ime = false ∧
      s5.sp = s.sp - 2 ∧
      Mem.read s5.mem 0xFF0F =
        s.mem.read 0xFF0F &&&
          (255 - (1 <<< CPU.firedIndex (s.mem.read 0xFFFF &&& s.mem.read 0xFF0F))) ∧
      Mem.read s5.mem (s.sp - 1) = (s.pc + 1) &&& 0xFF ∧
      Mem.read s5.mem (s.sp - 2) = ((s.pc + 1) >>> 8) &&& 0xFF := by
  have hpcr : (s.pc + 1) % 65536 = s.pc + 1 := Nat.mod_eq_of_lt hpc
  have hstep : CPU.stepInstr s = some ({ s with pc := s.pc + 1 }, 4) := by
    unfold CPU.stepInstr
    rw [hop]
    simp only [CPU.execOpcode, hpcr]
  have hrun : CPU.step s =
      some ({ CPU.serviceInterrupt
                { s with pc := s.pc + 1, ime := true, pendingIME := false,
                         cycleCount := (s.cycleCount + 4) % 4294967296,
                         ppuAttached := false,
                         divCounter := s.divCounter + 4 }
                (0x40 + 8 * CPU.firedIndex (s.mem.read 0xFFFF &&& s.mem.read 0xFF0F))
                (CPU.firedIndex (s.mem.read 0xFFFF &&& s.mem.read 0xFF0F)) with
              scanlineCycles := s.scanlineCycles + 24 }, 24) := by
    unfold CPU.step
    rw [hstep]
    simp only [checkInterrupts_dispatch, updateTimer_inactive,
      htac, hdiv, hppu, hime, hpend, hfired, if_true, if_false,
      Bool.false_eq_true, ne_eq, not_false_eq_true]
    rw [show (4 + 20 : Nat) = 24 from rfl]
    rw [updatePPUTiming_small _ 24 (by simp only [serviceInterrupt_scanlineCycles]; omega)]
    simp only [serviceInterrupt_scanlineCycles]
  have hs := serviceInterrupt_spec
    { s with pc := s.pc + 1, ime := true, pendingIME := false,
             cycleCount := (s.cycleCount + 4) % 4294967296,
             ppuAttached := false, divCounter := s.divCounter + 4 }
    (0x40 + 8 * CPU.firedIndex (s.mem.read 0xFFFF &&& s.mem.read 0xFF0F))
    (CPU.firedIndex (s.mem.read 0xFFFF &&& s.mem.read 0xFF0F))
    hsp1 hsp2 hne1 hne2
  exact ⟨_, hrun, hs.1, hs.2.1, hs.2.2.1, hs.2.2.2.1, hs.2.2.2.2.1, hs.2.2.2.2.2⟩

theorem read_write_self (m : Mem) (a v : Nat) : (m.write a v).read a = v % 256 := by
  unfold Mem.read Mem.write
  simp

theorem read_write_ne (m : Mem) (a b v : Nat) (h : b ≠ a) :
    (m.write a v).read b = m.read b := by
  unfold Mem.read Mem.write
  simp [h]

/-- Characterisation of the scanline loop of PPU::step: with enough fuel it
reduces the cycle counter modulo 456, advances LY by one line per 456
cycles consumed (wrapping at 154), keeps the LY register in memory equal to
the internal line, and writes only the LY, STAT and IF registers. -/
theorem stepLines_spec (fuel : Nat) :
    ∀ (cc ly stat lyc : Nat) (vbf : Bool) (m : Mem),
    cc ≤ fuel → ly ≤ 153 → Mem.read m 0xFF44 = ly →
    (PPU.stepLines fuel cc ly stat lyc vbf m).1 = cc % 456 ∧
    (PPU.stepLines fuel cc ly stat lyc vbf m).2.1 = (ly + cc / 456) % 154 ∧
    Mem.read (PPU.stepLines fuel cc ly stat lyc vbf m).2.2.2.2 0xFF44 =
      (PPU.stepLines fuel cc ly stat lyc vbf m).2.1 ∧
    (∀ adr, adr ≠ 0xFF44 → adr ≠ 0xFF41 → adr ≠ 0xFF0F →
      (PPU.stepLines fuel cc ly stat lyc vbf m).2.2.2.2 adr = m adr) := by
  induction fuel with
  | zero =>
    intro cc ly stat lyc vbf m hcc hly hm
    have hz : cc = 0 := by omega
    subst hz
    unfold PPU.stepLines
    exact ⟨rfl, by simp; omega, by simpa using hm, fun adr h1 h2 h3 => rfl⟩
  | succ fuel ih =>
    intro cc ly stat lyc vbf m hcc hly hm
    by_cases hcase : cc ≥ PPU.CYCLES_PER_LINE
    · unfold PPU.stepLines
      rw [if_pos hcase]
      unfold PPU.CYCLES_PER_LINE at hcase
      have hly1 : (ly + 1) % 256 = ly + 1 := Nat.mod_eq_of_lt (by omega)
      simp only [PPU.CYCLES_PER_LINE, PPU.VISIBLE_LINES, PPU.TOTAL_LINES, hly1]
      by_cases h154 : ly = 153
      · subst h154
        norm_num
        generalize ((if 0 = lyc then stat ||| 4 else stat &&& 251) &&& 252 ||| 2 : Nat) = st
        obtain ⟨i1, i2, i3, i4⟩ := ih (cc - 456) 0 st lyc false
          ((m.write 65348 0).write 65345 st) (by omega) (by norm_num)
          (by rw [read_write_ne _ _ _ _ (by norm_num), read_write_self]; try norm_num)
        exact ⟨by rw [i1]; omega, by rw [i2]; omega, i3,
          fun adr h1 h2 h3 => (i4 adr h1 h2 h3).trans (by simp [Mem.write, h1, h2, h3])⟩
      · by_cases h144 : ly = 143
        · subst h144
          norm_num
          generalize ((if 144 = lyc then stat ||| 4 else stat &&& 251) &&& 252 ||| 1 : Nat) = st
          obtain ⟨i1, i2, i3, i4⟩ := ih (cc - 456) 144 st lyc true
            (((m.write 65295 (m.read 65295 ||| 1)).write 65348 144).write 65345 st)
            (by omega) (by norm_num)
            (by rw [read_write_ne _ _ _ _ (by norm_num), read_write_self]; try norm_num)
          exact ⟨by rw [i1]; omega, by rw [i2]; omega, i3,
            fun adr h1 h2 h3 => (i4 adr h1 h2 h3).trans (by simp [Mem.write, h1, h2, h3])⟩
        · -- middle lines: ly + 1 is neither 144 nor 154
          have e144 : ((ly + 1 : Nat) == 144) = false := by simp; omega
          have e154 : ¬(ly + 1 ≥ 154) := by omega
          simp only [e144, Bool.false_eq_true, if_false, if_neg e154]
          generalize ((if ((ly + 1 : Nat) == lyc) = true then stat ||| 4 else stat &&& 255 - 4) &&& 252 |||
            if ly + 1 ≥ 144 then 1 else 2 : Nat) = st
          obtain ⟨i1, i2, i3, i4⟩ := ih (cc - 456) (ly + 1) st lyc vbf
            ((m.write 65348 (ly + 1)).write 65345 st)
            (by omega) (by omega)
            (by rw [read_write_ne _ _ _ _ (by norm_num), read_write_self]; omega)
          exact ⟨by rw [i1]; omega, by rw [i2]; omega, i3,
            fun adr h1 h2 h3 => (i4 adr h1 h2 h3).trans (by simp [Mem.write, h1, h2, h3])⟩
    · unfold PPU.stepLines
      rw [if_neg hcase]
      unfold PPU.CYCLES_PER_LINE at hcase
      exact ⟨by simp; omega, by simp; omega, by simpa using hm, fun adr h1 h2 h3 => rfl⟩

theorem apply_write_ne (m : Mem) (a v x : Nat) (h : x ≠ a) : (m.write a v) x = m x := by
  unfold Mem.write
  simp [h]

theorem read_ite_write {c : Prop} [Decidable c] (m : Mem) (a v x : Nat) (h : x ≠ a) :
    Mem.read (if c then m.write a v else m) x = Mem.read m x := by
  split
  · exact read_write_ne m a x v h
  · rfl

theorem apply_ite_write {c : Prop} [Decidable c] (m : Mem) (a v x : Nat) (h : x ≠ a) :
    (if c then m.write a v else m) x = m x := by
  split
  · exact apply_write_ne m a v x h
  · rfl

/-- Setting the mode bits of STAT leaves exactly those mode bits. -/
theorem mode_bits_check :
    ((List.range 256).all fun cs => (List.range 4).all fun mode =>
      ((cs &&& 252 ||| mode) &&& 3 == mode)) = true := by decide

theorem mode_bits {cs mode : Nat} (h1 : cs < 256) (h2 : mode < 4) :
    (cs &&& 252 ||| mode) &&& 3 = mode := by
  have ha := all_range_iff mode_bits_check h1
  have hb := all_range_iff ha h2
  exact eq_of_beq hb

/-- Characterisation of PPU::step with the LCD enabled: the cycle counter
is reduced modulo 456, LY advances one line per 456 cycles wrapping at 154,
only the LY/STAT/IF registers are written, the CPU-visible fields are
untouched, and the STAT mode bits afterwards reflect the position inside
the current line (2 / 3 / 0 on visible lines by in-line cycle, 1 during
VBlank lines). -/
theorem PPU_step_spec (s : State) (c : Nat)
    (hlcd : s.mem.read 0xFF40 &&& 0x80 ≠ 0)
    (hly : s.mem.read 0xFF44 ≤ 153) :
    ∃ m3 vbf1,
      PPU.step s c = { s with
        cycleCounter := (s.cycleCounter + c) % 456,
        vblankFlag := vbf1, mem := m3 } ∧
      Mem.read m3 0xFF44 = (s.mem.read 0xFF44 + (s.cycleCounter + c) / 456) % 154 ∧
      (∀ adr, adr ≠ 0xFF44 → adr ≠ 0xFF41 → adr ≠ 0xFF0F → m3 adr = s.mem adr) ∧
      (Mem.read m3 0xFF44 < 144 →
        Mem.read m3 0xFF41 &&& 3 =
          (if (s.cycleCounter + c) % 456 < 80 then 2
           else if (s.cycleCounter + c) % 456 < 252 then 3 else 0)) ∧
      (144 ≤ Mem.read m3 0xFF44 → Mem.read m3 0xFF41 &&& 3 = 1) := by
  have hlcdb : (s.mem.read 0xFF40 &&& 0x80 == 0) = false := by
    simpa using hlcd
  obtain ⟨i1, i2, i3, i4⟩ := stepLines_spec (s.cycleCounter + c) (s.cycleCounter + c)
    (s.mem.read 0xFF44) (s.mem.read 0xFF41) (s.mem.read 0xFF45) s.vblankFlag s.mem
    (le_refl _) hly rfl
  unfold PPU.step
  simp only [hlcdb, Bool.false_eq_true, if_false, PPU.VISIBLE_LINES, PPU.CYCLES_OAM,
    PPU.CYCLES_TRANSFER, show (80 + 172 : Nat) = 252 from rfl]
  set r := PPU.stepLines (s.cycleCounter + c) (s.cycleCounter + c) (s.mem.read 65348)
    (s.mem.read 65345) (s.mem.read 65349) s.vblankFlag s.mem with hr
  clear_value r
  obtain ⟨cc1, ly1, st1, vb1, m1⟩ := r
  simp only at i1 i2 i3 i4 ⊢
  subst i1
  have hcs : Mem.read m1 65345 < 256 := by
    unfold Mem.read; exact Nat.mod_lt _ (by norm_num)
  have hmode : ∀ x : Nat, (if x < 80 then 2 else if x < 252 then 3 else (0:Nat)) < 4 := by
    intro x
    split
    · norm_num
    · split <;> norm_num
  have hns : ∀ mo : Nat, mo < 4 → Mem.read m1 65345 &&& 252 ||| mo < 256 := by
    intro mo hmo
    have h1 : Mem.read m1 65345 &&& 252 < 2 ^ 8 := by
      calc Mem.read m1 65345 &&& 252 ≤ Mem.read m1 65345 := Nat.and_le_left
        _ < 2 ^ 8 := by simpa using hcs
    have h2 : mo < 2 ^ 8 := by norm_num; omega
    simpa using Nat.or_lt_two_pow h1 h2
  by_cases hv : ly1 < 144
  · rw [if_pos hv]
    refine ⟨_, _, rfl, ?_, ?_, ?_, ?_⟩
    · rw [read_ite_write _ _ _ _ (by norm_num), read_ite_write _ _ _ _ (by norm_num)]
      rw [i3, i2]
    · intro adr h1 h2 h3
      rw [apply_ite_write _ _ _ _ h3, apply_ite_write _ _ _ _ h2]
      exact i4 adr h1 h2 h3
    · intro hlt
      have hmo := hmode ((s.cycleCounter + c) % 456)
      have hnso := hns _ hmo
      set mo := (if (s.cycleCounter + c) % 456 < 80 then 2
        else if (s.cycleCounter + c) % 456 < 252 then 3 else (0:Nat)) with hmodef
      clear_value mo
      rw [read_ite_write _ _ _ _ (by norm_num)]
      split
      · rw [read_write_self, Nat.mod_eq_of_lt hnso]
        exact mode_bits hcs hmo
      · next hcond =>
        have hEq : Mem.read m1 65345 &&& 252 ||| mo = Mem.read m1 65345 := by
          simpa using hcond
        rw [← hEq]
        exact mode_bits hcs hmo
    · intro hge
      rw [read_ite_write _ _ _ _ (by norm_num), read_ite_write _ _ _ _ (by norm_num)] at hge
      rw [i3] at hge
      omega
  · rw [if_neg hv]
    refine ⟨_, _, rfl, ?_, ?_, ?_, ?_⟩
    · rw [read_ite_write _ _ _ _ (by norm_num), read_ite_write _ _ _ _ (by norm_num)]
      rw [i3, i2]
    · intro adr h1 h2 h3
      rw [apply_ite_write _ _ _ _ h3, apply_ite_write _ _ _ _ h2]
      exact i4 adr h1 h2 h3
    · intro hlt
      rw [read_ite_write _ _ _ _ (by norm_num), read_ite_write _ _ _ _ (by norm_num)] at hlt
      rw [i3] at hlt
      omega
    · intro hge
      rw [read_ite_write _ _ _ _ (by norm_num)]
      split
      · rw [read_write_self]
        rw [Nat.mod_eq_of_lt (hns 1 (by norm_num))]
        exact mode_bits hcs (by norm_num)
      · next hcond =>
        have hEq : Mem.read m1 65345 &&& 252 ||| 1 = Mem.read m1 65345 := by
          simpa using hcond
        rw [← hEq]
        exact mode_bits hcs (by norm_num)

/-- C8: PPU::step advances timing so that each scanline lasts 456 T-cycles
(the cycle counter is reduced modulo 456 and LY advances one line per 456
cycles); within a visible scanline the STAT mode bits are 2 for in-line
cycles 0..79, 3 for 80..251 and 0 for 252..455; lines 144..153 carry mode
1 for their whole duration; and LY wraps to 0 after 153 (monolithically,
LY advances modulo 154). -/
theorem C8_scanline_mode_timing (s : State) (c : Nat)
    (hlcd : s.mem.read 0xFF40 &&& 0x80 ≠ 0)
    (hly : s.mem.read 0xFF44 ≤ 153) :
    ∃ m3 vbf1,
      PPU.step s c = { s with
        cycleCounter := (s.cycleCounter + c) % 456,
        vblankFlag := vbf1, mem := m3 } ∧
      Mem.read m3 0xFF44 = (s.mem.read 0xFF44 + (s.cycleCounter + c) / 456) % 154 ∧
      (Mem.read m3 0xFF44 < 144 →
        Mem.read m3 0xFF41 &&& 3 =
          (if (s.cycleCounter + c) % 456 < 80 then 2
           else if (s.cycleCounter + c) % 456 < 252 then 3 else 0)) ∧
      (144 ≤ Mem.read m3 0xFF44 → Mem.read m3 0xFF41 &&& 3 = 1) := by
  obtain ⟨m3, vbf1, h1, h2, _, h4, h5⟩ := PPU_step_spec s c hlcd hly
  exact ⟨m3, vbf1, h1, h2, h4, h5⟩

theorem C8_scanline_mode_timing_witness :
    (ppuOnState.mem.read 0xFF40 &&& 0x80 ≠ 0) ∧
    (ppuOnState.mem.read 0xFF44 ≤ 153) ∧
    (∃ m3 vbf1,
      PPU.step ppuOnState 100 = { ppuOnState with
        cycleCounter := (ppuOnState.cycleCounter + 100) % 456,
        vblankFlag := vbf1, mem := m3 } ∧
      Mem.read m3 0xFF44 =
        (ppuOnState.mem.read 0xFF44 + (ppuOnState.cycleCounter + 100) / 456) % 154 ∧
      (Mem.read m3 0xFF44 < 144 →
        Mem.read m3 0xFF41 &&& 3 =
          (if (ppuOnState.cycleCounter + 100) % 456 < 80 then 2
           else if (ppuOnState.cycleCounter + 100) % 456 < 252 then 3 else 0)) ∧
      (144 ≤ Mem.read m3 0xFF44 → Mem.read m3 0xFF41 &&& 3 = 1)) :=
  ⟨by decide, by decide, C8_scanline_mode_timing ppuOnState 100 (by decide) (by decide)⟩

theorem or_one_and_one (x : Nat) : (x ||| 1) &&& 1 = 1 := by
  apply Nat.eq_of_testBit_eq
  intro i
  cases i with
  | zero => simp [Nat.testBit_and, Nat.testBit_or]
  | succ j => simp [Nat.testBit_and, Nat.testBit_or, Nat.testBit_succ]

theorem or_one_mod256_odd (x : Nat) : ((x ||| 1) % 256) &&& 1 = 1 := by
  rw [Nat.and_one_is_mod, Nat.mod_mod_of_dvd _ (by norm_num), ← Nat.and_one_is_mod]
  exact or_one_and_one x

/-- CPU::checkInterrupts does nothing when IME is off and no EI is
pending. -/
theorem checkInterrupts_quiet (s : State) (h1 : s.pendingIME = false)
    (h2 : s.ime = false) :
    CPU.checkInterrupts s = (false, s) := by
  simp [CPU.checkInterrupts, h1, h2]

/-- CPU::updatePPUTiming when its own counter crosses the 456-cycle
threshold: scanlineCycles absorbs the 456 cycles, LY advances by exactly
one line (wrapping 153 to 0, i.e. modulo 154), the OTHER scheduler's
cycleCounter is untouched, and when the new line is 144 the VBlank request
(IF bit 0) is raised. -/
theorem updatePPUTiming_cross (s : State) (c : Nat)
    (h : 456 ≤ s.scanlineCycles + c) (hly : s.mem.read 0xFF44 ≤ 153) :
    (CPU.updatePPUTiming s c).scanlineCycles = s.scanlineCycles + c - 456 ∧
    (CPU.updatePPUTiming s c).cycleCounter = s.cycleCounter ∧
    Mem.read (CPU.updatePPUTiming s c).mem 0xFF44 = (s.mem.read 0xFF44 + 1) % 154 ∧
    ((s.mem.read 0xFF44 + 1) % 154 = 144 →
      Mem.read (CPU.updatePPUTiming s c).mem 0xFF0F &&& 1 = 1) := by
  simp only [CPU.updatePPUTiming]
  rw [if_pos (by omega : s.scanlineCycles + c ≥ 456)]
  set L := s.mem.read 0xFF44 with hLdef
  have e0 : (L + 1) % 256 = L + 1 := by omega
  rw [e0]
  by_cases hw : L + 1 > 153
  · rw [if_pos hw, if_pos (by norm_num : (0 : Nat) < 144)]
    refine ⟨rfl, rfl, ?_, ?_⟩
    · rw [read_write_ne _ _ _ _ (by norm_num), read_write_self]
      omega
    · intro hh
      exact absurd hh (by omega)
  · rw [if_neg hw]
    by_cases h144 : L + 1 < 144
    · rw [if_pos h144]
      refine ⟨rfl, rfl, ?_, ?_⟩
      · rw [read_write_ne _ _ _ _ (by norm_num), read_write_self]
        omega
      · intro hh
        exact absurd hh (by omega)
    · rw [if_neg h144]
      by_cases heq : L + 1 = 144
      · rw [if_pos (show ((L + 1 : Nat) == 144) = true from by simp [heq])]
        refine ⟨rfl, rfl, ?_, ?_⟩
        · rw [read_write_ne _ _ _ _ (by norm_num), read_write_ne _ _ _ _ (by norm_num),
            read_write_self]
          omega
        · intro hh
          rw [read_write_ne _ _ _ _ (by norm_num), read_write_self]
          exact or_one_mod256_odd _
      · rw [if_neg (fun hb => heq (eq_of_beq hb))]
        refine ⟨rfl, rfl, ?_, ?_⟩
        · rw [read_write_ne _ _ _ _ (by norm_num), read_write_self]
          omega
        · intro hh
          exact absurd hh (by omega)

/-- Concrete instance of the double scanline advance: from LY = 5 with
both counters at 454, a single 4-cycle NOP leaves LY = 7 (PPU::step alone
on the same state only advances LY to 6), each counter independently
absorbing the same 4 cycles (454 + 4 - 456 = 2). -/
theorem double_advance_example :
    doubleTickState.mem.read 0xFF44 = 5 ∧
    (PPU.step doubleTickState 4).mem.read 0xFF44 = 6 ∧
    (CPU.step doubleTickState).map
      (fun p => (p.2, p.1.mem.read 0xFF44, p.1.cycleCounter, p.1.scanlineCycles)) =
      some (4, 7, 2, 2) := by
  refine ⟨by decide, by decide, by decide⟩

/-- C10: with a PPU attached, EVERY CPU::step advances scanline timing
twice for the one instruction it retires: whatever instruction stepInstr
executed (any retired state s1 and cycle count cy), the epilogue first has
PPU::step absorb the cy cycles into its cycleCounter (reduced modulo 456,
LY advancing one line per 456 consumed), and then has updatePPUTiming
absorb the SAME cy cycles into its own scanlineCycles, advancing LY a
second time whenever that counter also crosses 456 -- raising its own
VBlank request (IF bit 0) when the second advance lands on line 144.  The
quiescence hypotheses (IME off, no pending EI, timer inert, LCD on) only
keep the other epilogue stages from touching the observed registers. -/
theorem C10_double_scanline_advance (s s1 : State) (cy : Nat)
    (hinstr : CPU.stepInstr s = some (s1, cy))
    (hppu : s1.ppuAttached = true)
    (hlcd : s1.mem.read 0xFF40 &&& 0x80 ≠ 0)
    (hly : s1.mem.read 0xFF44 ≤ 153)
    (hime : s1.ime = false) (hpend : s1.pendingIME = false)
    (htac : s1.mem.read 0xFF07 &&& 0x04 = 0)
    (hdiv : s1.divCounter + cy < 256) :
    ∃ s5 : State, CPU.step s = some (s5, cy) ∧
      s5.cycleCounter = (s1.cycleCounter + cy) % 456 ∧
      s5.scanlineCycles =
        (if 456 ≤ s1.scanlineCycles + cy then s1.scanlineCycles + cy - 456
         else s1.scanlineCycles + cy) ∧
      s5.mem.read 0xFF44 =
        (if 456 ≤ s1.scanlineCycles + cy then
           ((s1.mem.read 0xFF44 + (s1.cycleCounter + cy) / 456) % 154 + 1) % 154
         else (s1.mem.read 0xFF44 + (s1.cycleCounter + cy) / 456) % 154) ∧
      (456 ≤ s1.scanlineCycles + cy →
        ((s1.mem.read 0xFF44 + (s1.cycleCounter + cy) / 456) % 154 + 1) % 154 = 144 →
        s5.mem.read 0xFF0F &&& 1 = 1) := by
  obtain ⟨m3, vbf1, hpp, hLYr, -, -, -⟩ :=
    PPU_step_spec
      { s1 with cycleCount := (s1.cycleCount + cy) % 4294967296,
                divCounter := s1.divCounter + cy } cy hlcd hly
  have hLY1 : Mem.read m3 0xFF44 =
      (s1.mem.read 0xFF44 + (s1.cycleCounter + cy) / 456) % 154 := hLYr
  have hchk := checkInterrupts_quiet
      { s1 with cycleCount := (s1.cycleCount + cy) % 4294967296,
                divCounter := s1.divCounter + cy,
                cycleCounter := (s1.cycleCounter + cy) % 456,
                vblankFlag := vbf1, mem := m3 } hpend hime
  have hrun : CPU.step s = some
      (CPU.updatePPUTiming
        { s1 with cycleCount := (s1.cycleCount + cy) % 4294967296,
                  divCounter := s1.divCounter + cy,
                  cycleCounter := (s1.cycleCounter + cy) % 456,
                  vblankFlag := vbf1, mem := m3 } cy, cy) := by
    rw [hppu] at hpp hchk
    unfold CPU.step
    rw [hinstr]
    simp only [updateTimer_inactive, htac, hdiv, hppu, hpp, hchk, if_true,
      Bool.false_eq_true, if_false, ne_eq, not_false_eq_true]
  by_cases hsc : 456 ≤ s1.scanlineCycles + cy
  · have hL3 : Mem.read m3 0xFF44 ≤ 153 := by
      rw [hLY1]
      omega
    obtain ⟨u1, u2, u3, u4⟩ := updatePPUTiming_cross
      { s1 with cycleCount := (s1.cycleCount + cy) % 4294967296,
                divCounter := s1.divCounter + cy,
                cycleCounter := (s1.cycleCounter + cy) % 456,
                vblankFlag := vbf1, mem := m3 } cy hsc hL3
    simp only at u1 u2 u3 u4
    rw [hLY1] at u3 u4
    refine ⟨_, hrun, ?_, ?_, ?_, ?_⟩
    · exact u2
    · rw [if_pos hsc]
      exact u1
    · rw [if_pos hsc]
      exact u3
    · intro _ h2
      exact u4 h2
  · have hsmall : CPU.updatePPUTiming
        { s1 with cycleCount := (s1.cycleCount + cy) % 4294967296,
                  divCounter := s1.divCounter + cy,
                  cycleCounter := (s1.cycleCounter + cy) % 456,
                  vblankFlag := vbf1, mem := m3 } cy =
        { s1 with cycleCount := (s1.cycleCount + cy) % 4294967296,
                  divCounter := s1.divCounter + cy,
                  cycleCounter := (s1.cycleCounter + cy) % 456,
                  vblankFlag := vbf1, mem := m3,
                  scanlineCycles := s1.scanlineCycles + cy } :=
      updatePPUTiming_small _ cy (by show s1.scanlineCycles + cy < 456; omega)
    rw [hsmall] at hrun
    refine ⟨_, hrun, rfl, ?_, ?_, fun hcross _ => absurd hcross hsc⟩
    · rw [if_neg hsc]
    · rw [if_neg hsc]
      exact hLY1

theorem C2_push_pop_swaps_bytes_witness :
    (0x1234 : Nat) < 65536 ∧ zeroState.sp < 65536 ∧
    ((CPU.pop (CPU.push zeroState 0x1234)).2 = 0x1234 % 256 * 256 + 0x1234 / 256 ∧
     (CPU.pop (CPU.push zeroState 0x1234)).1.sp = zeroState.sp ∧
     Mem.read (CPU.push zeroState 0x1234).mem ((zeroState.sp + 65535) % 65536) =
       0x1234 % 256 ∧
     Mem.read (CPU.push zeroState 0x1234).mem ((zeroState.sp + 65534) % 65536) =
       0x1234 / 256) :=
  ⟨by decide, by decide, C2_push_pop_swaps_bytes zeroState 0x1234 (by decide) (by decide)⟩

theorem C9_ldh_a8_writes_nothing_witness :
    ldhState.mem.read ldhState.pc = 0xE0 ∧
    CPU.stepInstr ldhState = some ({ ldhState with pc := (ldhState.pc + 2) % 65536 }, 12) :=
  ⟨by decide, C9_ldh_a8_writes_nothing ldhState (by decide)⟩

theorem C6_cycles_multiple_of_four_witness :
    CPU.stepInstr zeroState = some ({ zeroState with pc := 1 }, 4) ∧ 4 % 4 = 0 :=
  ⟨rfl, C6_cycles_multiple_of_four.2.2 zeroState ({ zeroState with pc := 1 }, 4) rfl⟩

theorem C7_cp_flags_equal_sub_witness :
    zeroState.a < 256 ∧
    (cpOutcome.1.f = subOutcome.1.f ∧ cpOutcome.1.a = zeroState.a ∧
     subOutcome.1.a = (zeroState.a + 256 - zeroState.mem.read zeroState.pc) % 256 ∧
     CPU.getHalfCarryFlag cpOutcome.1 =
       ((zeroState.a ^^^ zeroState.mem.read zeroState.pc ^^^
         ((zeroState.a + 256 - zeroState.mem.read zeroState.pc) % 256)) &&& 16 != 0) ∧
     subOutcome.2 = 8 ∧ cpOutcome.2 = 8) :=
  ⟨by decide, C7_cp_flags_equal_sub zeroState (by decide) subOutcome.1 cpOutcome.1
    subOutcome.2 cpOutcome.2 rfl rfl⟩

theorem C3_ei_di_reti_semantics_witness :
    eiPendingState.pendingIME = true ∧
    eiPendingState.mem.read 0xFFFF &&& eiPendingState.mem.read 0xFF0F = 0 ∧
    CPU.checkInterrupts eiPendingState =
      (false, { eiPendingState with ime := true, pendingIME := false }) :=
  ⟨rfl, by decide, C3_ei_di_reti_semantics.2.1 eiPendingState rfl (by decide)⟩

theorem C4_interrupt_dispatch_witness :
    c4State.mem.read c4State.pc = 0x00 ∧
    c4State.ime = true ∧
    (c4State.mem.read 0xFFFF &&& c4State.mem.read 0xFF0F) &&& 0x1F ≠ 0 ∧
    (∃ s5 : State, CPU.step c4State = some (s5, 24) ∧
      s5.pc = 0x40 + 8 * CPU.firedIndex (c4State.mem.read 0xFFFF &&& c4State.mem.read 0xFF0F) ∧
      s5.ime = false ∧
      s5.sp = c4State.sp - 2 ∧
      Mem.read s5.mem 0xFF0F =
        c4State.mem.read 0xFF0F &&&
          (255 - (1 <<< CPU.firedIndex (c4State.mem.read 0xFFFF &&& c4State.mem.read 0xFF0F))) ∧
      Mem.read s5.mem (c4State.sp - 1) = (c4State.pc + 1) &&& 0xFF ∧
      Mem.read s5.mem (c4State.sp - 2) = ((c4State.pc + 1) >>> 8) &&& 0xFF) :=
  ⟨by decide, rfl, by decide,
   C4_interrupt_dispatch c4State (by decide) rfl rfl rfl (by decide) (by decide)
     (by decide) (by decide) (by decide) (by decide) (by decide) (by decide) (by decide)⟩

theorem C10_double_scanline_advance_witness :
    CPU.stepInstr doubleTickState = some (c10After, 4) ∧
    c10After.ppuAttached = true ∧
    c10After.mem.read 0xFF40 &&& 0x80 ≠ 0 ∧
    c10After.mem.read 0xFF44 ≤ 153 ∧
    (∃ s5 : State, CPU.step doubleTickState = some (s5, 4) ∧
      s5.cycleCounter = (c10After.cycleCounter + 4) % 456 ∧
      s5.scanlineCycles =
        (if 456 ≤ c10After.scanlineCycles + 4 then c10After.scanlineCycles + 4 - 456
         else c10After.scanlineCycles + 4) ∧
      s5.mem.read 0xFF44 =
        (if 456 ≤ c10After.scanlineCycles + 4 then
           ((c10After.mem.read 0xFF44 + (c10After.cycleCounter + 4) / 456) % 154 + 1) % 154
         else (c10After.mem.read 0xFF44 + (c10After.cycleCounter + 4) / 456) % 154) ∧
      (456 ≤ c10After.scanlineCycles + 4 →
        ((c10After.mem.read 0xFF44 + (c10After.cycleCounter + 4) / 456) % 154 + 1) % 154 =
          144 →
        s5.mem.read 0xFF0F &&& 1 = 1)) :=
  ⟨rfl, rfl, by decide, by decide,
   C10_double_scanline_advance doubleTickState c10After 4 rfl rfl (by decide) (by decide)
     rfl rfl (by decide) (by decide)⟩

end GB
